import Mathlib

/-
  Shallow embedding of `src/vision_app/views.py` (gemini_vision_whatsapp).

  Conventions of the embedding:
  * Timestamps (`time.time()`) are modelled as a `Nat` passed in as `now`.
  * Request bodies are modelled by `ReqBody`: `empty` (falsy `request.body`),
    `invalid msg` (`json.loads` raises with message `msg`), or `valid data`
    (the parsed, type-coerced fields).
  * External effects are oracles passed as function arguments:
    `b64decode` models `base64.b64decode` (returns bytes or raises),
    `image_open` models `PIL.Image.open` on the extracted bytes,
    `api` models `model.generate_content` per retry attempt: it raises
    (`Except.error msg`) or returns a `response.text` payload, where
    `none` models a falsy payload (`None`) and `some t` a string payload.
  * Exceptions are `Except String` values; `str(e)` is the carried message.
  * Bytes are `List Nat`.
-/

namespace VisionApp

/-- The global CONFIG dict (views.py lines 18-23).  `quality` is absent
initially and only added by `update_config`; Python's `float` coercion is
modelled by the rational value of the supplied number. -/
structure Config where
  capture_interval : Int
  test_mode : Bool
  max_retries : Nat
  retry_delay : Nat
  quality : Option ℚ
deriving DecidableEq, Repr

/-- Initial CONFIG: capture_interval 20, test_mode False, max_retries 3,
retry_delay 1, no quality key. -/
def initConfig : Config :=
  { capture_interval := 20, test_mode := false, max_retries := 3,
    retry_delay := 1, quality := none }

/-- The fields of the global `SessionState` object (views.py lines 26-34).
The `threading.Lock` field is not data; its effect is modelled in the
interleaving semantics further below. -/
structure SessionState where
  active : Bool
  processed_count : Nat
  latest_result : String
  last_update : Option Nat
  test_mode : Bool
  frame_number : Nat
deriving DecidableEq, Repr

/-- `SessionState.__init__` (views.py lines 27-34). -/
def initState : SessionState :=
  { active := false, processed_count := 0, latest_result := "No results yet",
    last_update := none, test_mode := false, frame_number := 0 }

/-- `SessionState.update_result` (views.py lines 36-42): under the lock,
increment both counters, store the result text, stamp the time. -/
def SessionState.update_result (s : SessionState) (result : String) (now : Nat) :
    SessionState :=
  { s with
    processed_count := s.processed_count + 1
    frame_number := s.frame_number + 1
    latest_result := result
    last_update := some now }

/-- `SessionState.reset` (views.py lines 44-50): under the lock, deactivate,
zero both counters, store the end banner, stamp the time. -/
def SessionState.reset (s : SessionState) (now : Nat) : SessionState :=
  { s with
    active := false
    processed_count := 0
    frame_number := 0
    latest_result := "Session ended"
    last_update := some now }

/-- A parsed HTTP request body: falsy/absent, raising on `json.loads`, or
successfully parsed to `α`. -/
inductive ReqBody (α : Type) where
  | empty : ReqBody α
  | invalid (msg : String) : ReqBody α
  | valid (data : α) : ReqBody α
deriving DecidableEq, Repr

/-- The five canned test responses (views.py lines 127-133). -/
def test_responses : List String :=
  ["Q: Question 1\nA: Option C",
   "Q: Question 2\nA: Option B",
   "Q: Physics Problem\nA: 9.8 m/s²",
   "Q: Math Equation\nA: x = 15",
   "Q: No question detected\nA: N/A"]

/-- `GeminiVisionService._generate_test_response` (views.py lines 125-136):
index the canned list by `frame_number % len(test_responses)`.  The index is
always in range, so the `getD` default is never used. -/
def generate_test_response (frame_number : Nat) : String :=
  test_responses.getD (frame_number % test_responses.length) ""

/-- The retry loop of `process_image` (views.py lines 103-119), translated
structurally: `remaining` counts the iterations of
`for attempt in range(max_retries)` that are still to run, so the Python
guard `attempt < max_retries - 1` becomes `remaining > 1` at the head of the
current iteration, i.e. `remaining ≠ 0` after peeling it.  A falsy
`response.text` yields the no-response placeholder; on the last attempt the
API exception is re-raised. -/
def retry_from (api : Nat → Except String (Option String)) (frame_number : Nat) :
    Nat → Nat → Except String String
  | _, 0 =>
      Except.ok ("Q: Frame " ++ toString frame_number ++ "\nA: API Error after retries")
  | attempt, remaining + 1 =>
      match api attempt with
      | Except.ok (some text) =>
          if text = "" then
            Except.ok ("Q: Frame " ++ toString frame_number ++ "\nA: No response from API")
          else
            Except.ok text.trim
      | Except.ok none =>
          Except.ok ("Q: Frame " ++ toString frame_number ++ "\nA: No response from API")
      | Except.error apiError =>
          if remaining = 0 then Except.error apiError
          else retry_from api frame_number (attempt + 1) remaining

/-- The body of `GeminiVisionService.process_image` inside the outer `try`
(views.py lines 62-119).  `api_key` models `settings.GEMINI_API_KEY` being
configured; `image_open` the result of `Image.open` on the given bytes. -/
def process_image_body (api_key : Bool) (image_open : Except String Unit)
    (api : Nat → Except String (Option String)) (max_retries : Nat)
    (frame_number : Nat) (test_mode : Bool) : Except String String :=
  if test_mode then
    Except.ok (generate_test_response frame_number)
  else if !api_key then
    Except.ok "❌ Error: Gemini API key not configured"
  else
    match image_open with
    | Except.error e => Except.error e
    | Except.ok _ => retry_from api frame_number 0 max_retries

/-- `GeminiVisionService.process_image` (views.py lines 60-123): the body
wrapped in the outer `try/except` that converts any exception into the
degraded string `Q: Frame <n>\nA: Processing error: <str(e)[:50]>...`. -/
def process_image (api_key : Bool) (image_open : Except String Unit)
    (api : Nat → Except String (Option String)) (max_retries : Nat)
    (frame_number : Nat) (test_mode : Bool) : String :=
  match process_image_body api_key image_open api max_retries frame_number test_mode with
  | Except.ok result => result
  | Except.error e =>
      "Q: Frame " ++ toString frame_number ++ "\nA: Processing error: " ++
        (e.take 50) ++ "..."

/-- The `split(',')[1]` step of upload_frame (views.py lines 232-233): when
the base64 string contains a comma, keep the part after the first comma. -/
def stripDataUrl (s : String) : String :=
  if s.contains ',' then (s.splitOn ",").getD 1 "" else s

/-- The image-extraction `try` block of `upload_frame` (views.py lines
226-234).  `files` is the optional multipart `image` file already read to
bytes; `body` the JSON body whose optional `image` field is a base64 string;
`b64decode` the base64 decoder oracle. -/
def extract_image_data (files : Option (List Nat)) (body : ReqBody (Option String))
    (b64decode : String → Except String (List Nat)) : Except String (List Nat) :=
  match files with
  | some fileBytes => Except.ok fileBytes
  | none =>
      match body with
      | ReqBody.invalid msg => Except.error msg
      | ReqBody.empty => b64decode (stripDataUrl "")
      | ReqBody.valid imgField => b64decode (stripDataUrl (imgField.getD ""))

/-- Response of `start_session` (views.py lines 176-186): HTTP status,
JSON `status`, `message`, and `test_mode` (absent on the error path). -/
structure StartResponse where
  httpStatus : Nat
  status : String
  message : String
  test_mode : Option Bool
deriving DecidableEq, Repr

/-- `start_session` (views.py lines 158-186).  The body is parsed first
(`json.loads` raises before any state write, giving the HTTP 500 path); on
success every SessionState field is assigned. `cfgTestMode` is
`CONFIG['test_mode']`, the default for a missing `test_mode` field. -/
def start_session (cfgTestMode : Bool) (body : ReqBody (Option Bool)) (now : Nat)
    (s : SessionState) : StartResponse × SessionState :=
  match body with
  | ReqBody.invalid msg =>
      ({ httpStatus := 500, status := "error",
         message := "Failed to start session: " ++ msg, test_mode := none }, s)
  | ReqBody.empty =>
      let test_mode := cfgTestMode
      ({ httpStatus := 200, status := "success",
         message := "Session started successfully", test_mode := some test_mode },
       { s with active := true, processed_count := 0, frame_number := 0,
                test_mode := test_mode,
                latest_result := "Session started - waiting for first image...",
                last_update := some now })
  | ReqBody.valid tmField =>
      let test_mode := tmField.getD cfgTestMode
      ({ httpStatus := 200, status := "success",
         message := "Session started successfully", test_mode := some test_mode },
       { s with active := true, processed_count := 0, frame_number := 0,
                test_mode := test_mode,
                latest_result := "Session started - waiting for first image...",
                last_update := some now })

/-- Response of `end_session` (views.py lines 200-204). -/
structure EndResponse where
  status : String
  processed_count : Nat
  total_frames : Nat
deriving DecidableEq, Repr

/-- `end_session` (views.py lines 189-204): read both counters, then reset.
Nothing in the `try` block can raise in the model, so the 500 path is
unreachable and not represented. -/
def end_session (now : Nat) (s : SessionState) : EndResponse × SessionState :=
  let count := s.processed_count
  let frame_number := s.frame_number
  let s2 := s.reset now
  ({ status := "success", processed_count := count, total_frames := frame_number }, s2)

/-- Response of `upload_frame`: JSON `status`, optional `message` (inactive
path), optional `result` and counters (success paths). -/
structure UploadResponse where
  status : String
  message : Option String
  result : Option String
  processed_count : Option Nat
  frame_number : Option Nat
deriving DecidableEq, Repr

/-- The success JSON of `upload_frame`: counters are re-read from the state
AFTER `update_result` (views.py lines 242-247, 252-257, 269-274). -/
def uploadSuccess (result : String) (s : SessionState) : UploadResponse :=
  { status := "success", message := none, result := some result,
    processed_count := some s.processed_count, frame_number := some s.frame_number }

/-- `upload_frame` (views.py lines 213-274): reject when inactive; otherwise
extract the image bytes; on extraction failure degrade to a canned response
(test mode) or the capture-issue placeholder, on success call
`process_image`; in every non-reject path call `update_result` exactly once
and answer transport success. -/
def upload_frame (s : SessionState) (files : Option (List Nat))
    (body : ReqBody (Option String)) (b64decode : String → Except String (List Nat))
    (api_key : Bool) (image_open : List Nat → Except String Unit)
    (api : Nat → Except String (Option String)) (max_retries : Nat)
    (now : Nat) : UploadResponse × SessionState :=
  if !s.active then
    ({ status := "error",
       message := some "No active session. Please start session first.",
       result := none, processed_count := none, frame_number := none }, s)
  else
    match extract_image_data files body b64decode with
    | Except.error _ =>
        if s.test_mode then
          let result := generate_test_response (s.frame_number + 1)
          let s2 := s.update_result result now
          (uploadSuccess result s2, s2)
        else
          let result := "Q: Frame " ++ toString (s.frame_number + 1) ++
            "\nA: Image capture issue"
          let s2 := s.update_result result now
          (uploadSuccess result s2, s2)
    | Except.ok image_data =>
        let result := process_image api_key (image_open image_data) api max_retries
          (s.frame_number + 1) s.test_mode
        let s2 := s.update_result result now
        (uploadSuccess result s2, s2)

/-- The defensive outer `except` of `upload_frame` (views.py lines 276-289):
the handler's behaviour when an unexpected exception reaches the outer
boundary with session state `s`: synthesize the system-error placeholder for
the next frame number, record it, answer transport success. -/
def upload_frame_fault (s : SessionState) (now : Nat) :
    UploadResponse × SessionState :=
  let error_msg := "Q: Frame " ++ toString (s.frame_number + 1) ++
    "\nA: System error (session continues)"
  let s2 := s.update_result error_msg now
  (uploadSuccess error_msg s2, s2)

/-- Response of `get_latest_result` (views.py lines 291-301). -/
structure LatestResultResponse where
  active : Bool
  latest_result : String
  processed_count : Nat
  frame_number : Nat
  last_update : Option Nat
deriving DecidableEq, Repr

/-- `get_latest_result` (views.py lines 291-301), as a sequential snapshot. -/
def get_latest_result (s : SessionState) : LatestResultResponse :=
  { active := s.active, latest_result := s.latest_result,
    processed_count := s.processed_count, frame_number := s.frame_number,
    last_update := s.last_update }

/-- Response of `session_status` (views.py lines 303-312). -/
structure StatusResponse where
  active : Bool
  processed_count : Nat
  frame_number : Nat
  test_mode : Bool
deriving DecidableEq, Repr

/-- `session_status` (views.py lines 303-312), as a sequential snapshot. -/
def session_status (s : SessionState) : StatusResponse :=
  { active := s.active, processed_count := s.processed_count,
    frame_number := s.frame_number, test_mode := s.test_mode }

/-- The recognized fields of an `update_config` body, already type-coerced
(`int`, `bool`, `float` — the float value as a rational). -/
structure ConfigRequest where
  capture_interval : Option Int
  test_mode : Option Bool
  quality : Option ℚ
deriving DecidableEq, Repr

/-- Response of `update_config` (views.py lines 328-331, 335-338). -/
structure ConfigResponse where
  status : String
  config : Config
deriving DecidableEq, Repr

/-- `update_config` (views.py lines 314-337).  A non-POST request falls
through to the bottom return; an empty body makes `json.loads` raise (there
is no `if request.body` guard here), as does a malformed one, and the
exception is caught and the unchanged CONFIG returned; otherwise each
supplied field is merged, with `capture_interval` clamped to `max 2 ·`. -/
def update_config (cfg : Config) (isPost : Bool) (body : ReqBody ConfigRequest) :
    ConfigResponse × Config :=
  if isPost then
    match body with
    | ReqBody.invalid _ => ({ status := "success", config := cfg }, cfg)
    | ReqBody.empty => ({ status := "success", config := cfg }, cfg)
    | ReqBody.valid data =>
        let cfg1 :=
          match data.capture_interval with
          | some v => { cfg with capture_interval := max 2 v }
          | none => cfg
        let cfg2 :=
          match data.test_mode with
          | some b => { cfg1 with test_mode := b }
          | none => cfg1
        let cfg3 :=
          match data.quality with
          | some q => { cfg2 with quality := some q }
          | none => cfg2
        ({ status := "success", config := cfg3 }, cfg3)
  else
    ({ status := "success", config := cfg }, cfg)

/-- One state-mutating request against the shared SessionState, carrying all
inputs its handler needs.  `uploadFaultOp` is an upload whose body hits the
defensive outer catch. -/
inductive Op where
  | startOp (cfgTestMode : Bool) (body : ReqBody (Option Bool)) (now : Nat)
  | uploadOp (files : Option (List Nat)) (body : ReqBody (Option String))
      (b64decode : String → Except String (List Nat)) (api_key : Bool)
      (image_open : List Nat → Except String Unit)
      (api : Nat → Except String (Option String)) (max_retries : Nat) (now : Nat)
  | uploadFaultOp (now : Nat)
  | endOp (now : Nat)

/-- The state transition of one request (its response discarded). -/
def runOp (s : SessionState) : Op → SessionState
  | Op.startOp cfg body now => (start_session cfg body now s).2
  | Op.uploadOp files body b64 k imo api mr now =>
      (upload_frame s files body b64 k imo api mr now).2
  | Op.uploadFaultOp now => (upload_frame_fault s now).2
  | Op.endOp now => (end_session now s).2

/-- A partially built polling observation: `none` marks a field not yet
read.  Mirrors the dict literal of `get_latest_result`. -/
structure Observation where
  active : Option Bool
  latest_result : Option String
  processed_count : Option Nat
  frame_number : Option Nat
  last_update : Option (Option Nat)
deriving DecidableEq, Repr

/-- The observation with no field read yet. -/
def emptyObs : Observation :=
  { active := none, latest_result := none, processed_count := none,
    frame_number := none, last_update := none }

/-- The individual field writes of `SessionState.update_result` (views.py
lines 38-41), in program order.  The `threading.Lock` held around them
excludes other lock acquirers but not the lock-free polling readers. -/
def writer_steps (result : String) (now : Nat) : List (SessionState → SessionState) :=
  [fun s => { s with processed_count := s.processed_count + 1 },
   fun s => { s with frame_number := s.frame_number + 1 },
   fun s => { s with latest_result := result },
   fun s => { s with last_update := some now }]

/-- The individual field reads of `get_latest_result` (views.py lines
295-300), in the evaluation order of the dict literal.  The reader takes no
lock in the source. -/
def reader_steps : List (SessionState → Observation → Observation) :=
  [fun s o => { o with active := some s.active },
   fun s o => { o with latest_result := some s.latest_result },
   fun s o => { o with processed_count := some s.processed_count },
   fun s o => { o with frame_number := some s.frame_number },
   fun s o => { o with last_update := some s.last_update }]

/-- Run one writer and one reader concurrently under a schedule: `true`
performs the next writer step, `false` the next reader step; when the
schedule ends, the remaining writer steps run, then the remaining reader
steps.  Exhausted sides ignore their schedule entries. -/
def interleave :
    List (SessionState → SessionState) → List (SessionState → Observation → Observation) →
    SessionState → Observation → List Bool → SessionState × Observation
  | ws, rs, s, o, [] =>
      let s2 := ws.foldl (fun st f => f st) s
      (s2, rs.foldl (fun ob f => f s2 ob) o)
  | w :: ws, rs, s, o, true :: sched => interleave ws rs (w s) o sched
  | [], rs, s, o, true :: sched => interleave [] rs s o sched
  | ws, r :: rs, s, o, false :: sched => interleave ws rs s (r s o) sched
  | ws, [], s, o, false :: sched => interleave ws [] s o sched

/-- Base64 decoder oracle that accepts every input (enough for uploads that
carry a multipart file, where it is never consulted). -/
def okB64 : String → Except String (List Nat) := fun _ => Except.ok []

/-- Image-open oracle that accepts the bytes. -/
def okOpen : List Nat → Except String Unit := fun _ => Except.ok ()

/-- API oracle for test-mode runs, where no external call may happen. -/
def noApi : Nat → Except String (Option String) := fun _ => Except.error "no api call expected"

/-- C1 scenario, step 1: `start(test_mode=true)` from the initial state. -/
def c1Start : StartResponse × SessionState :=
  start_session false (ReqBody.valid (some true)) 0 initState

/-- C1 scenario, step 2: first upload, with valid multipart image bytes. -/
def c1Upload1 : UploadResponse × SessionState :=
  upload_frame c1Start.2 (some [0, 1, 2]) ReqBody.empty okB64 true okOpen noApi 3 1

/-- C1 scenario, step 3: second upload. -/
def c1Upload2 : UploadResponse × SessionState :=
  upload_frame c1Upload1.2 (some [0, 1, 2]) ReqBody.empty okB64 true okOpen noApi 3 2

/-- C1 scenario, step 4: third upload. -/
def c1Upload3 : UploadResponse × SessionState :=
  upload_frame c1Upload2.2 (some [0, 1, 2]) ReqBody.empty okB64 true okOpen noApi 3 3

/-- C1 scenario, step 5: `end`. -/
def c1End : EndResponse × SessionState :=
  end_session 4 c1Upload3.2

/-- A concrete operation sequence `start → degraded upload → end` used to
instantiate the C2 invariant. -/
def c2Ops : List Op :=
  [Op.startOp false (ReqBody.valid (some true)) 0, Op.uploadFaultOp 1, Op.endOp 2]

/-- The state after the first two operations of `c2Ops`. -/
def c2AfterUpload : SessionState :=
  runOp (runOp initState (Op.startOp false (ReqBody.valid (some true)) 0))
    (Op.uploadFaultOp 1)

/-- A running session in non-test mode, as produced by a start; used to
instantiate theorems with hypotheses at a concrete state. -/
def activeState : SessionState :=
  { active := true, processed_count := 0,
    latest_result := "Session started - waiting for first image...",
    last_update := some 0, test_mode := false, frame_number := 0 }

/-- C4: the test-mode generator is a pure Lean function of the frame number
(purity and absence of external calls hold by construction of the
embedding): it returns the element at index `n % 5` of the fixed
five-element canned list, and its value at `n + 5` equals its value at `n`,
so the cycling period is the list length. -/
theorem generate_test_response_pure_cycle :
    test_responses.length = 5 ∧
    (∀ n : Nat, generate_test_response n = test_responses.getD (n % 5) "") ∧
    (∀ n : Nat, generate_test_response (n + 5) = generate_test_response n) := by
  refine ⟨rfl, fun n => rfl, fun n => ?_⟩
  simp [generate_test_response, test_responses, Nat.add_mod_right]

/-- C9: a start request whose non-empty body fails JSON parsing returns the
HTTP 500 error response and returns the session state exactly as it was:
the parse happens before any state write, so a failed start mutates no
field of SessionState. -/
theorem start_session_invalid_body_500_unchanged :
    ∀ (cfgTestMode : Bool) (msg : String) (now : Nat) (s : SessionState),
      start_session cfgTestMode (ReqBody.invalid msg) now s =
        ({ httpStatus := 500, status := "error",
           message := "Failed to start session: " ++ msg, test_mode := none }, s) :=
  fun _ _ _ _ => rfl

/-- C5: an upload arriving while `active` is false returns the explicit
inactive-session error response and returns the session state unchanged,
every field included. -/
theorem upload_frame_inactive_error_unchanged :
    ∀ (s : SessionState) files body b64decode api_key image_open api max_retries now,
      s.active = false →
      upload_frame s files body b64decode api_key image_open api max_retries now =
        ({ status := "error",
           message := some "No active session. Please start session first.",
           result := none, processed_count := none, frame_number := none }, s) := by
  intro s files body b64 k imo api mr now h
  simp [upload_frame, h]

/-- Witness for C5: the initial state is inactive, and an upload against it
returns the inactive-session error with the state unchanged. -/
theorem upload_frame_inactive_error_unchanged_witness :
    initState.active = false ∧
    upload_frame initState none ReqBody.empty (fun _ => Except.ok []) true
        (fun _ => Except.ok ()) (fun _ => Except.error "down") 3 0 =
      ({ status := "error",
         message := some "No active session. Please start session first.",
         result := none, processed_count := none, frame_number := none }, initState) :=
  ⟨rfl, upload_frame_inactive_error_unchanged initState none ReqBody.empty
    (fun _ => Except.ok []) true (fun _ => Except.ok ()) (fun _ => Except.error "down")
    3 0 rfl⟩

/-- C10: in both degraded paths of the upload handler — extraction failure in
non-test mode, and the defensive outer catch — the frame number embedded in
the synthesized `Q: Frame <n>` placeholder is `frame_number + 1` read before
recording, which equals the `frame_number` counter of the state after the
`update_result` call (the model is sequential, i.e. no interleaved writer). -/
theorem upload_placeholder_frame_number_consistent :
    (∀ (s : SessionState) files body b64decode api_key image_open api max_retries now msg,
      s.active = true → s.test_mode = false →
      extract_image_data files body b64decode = Except.error msg →
      (upload_frame s files body b64decode api_key image_open api max_retries now).1.result =
        some ("Q: Frame " ++
          toString ((upload_frame s files body b64decode api_key image_open api
            max_retries now).2.frame_number) ++ "\nA: Image capture issue")) ∧
    (∀ (s : SessionState) (now : Nat),
      (upload_frame_fault s now).1.result =
        some ("Q: Frame " ++ toString ((upload_frame_fault s now).2.frame_number) ++
          "\nA: System error (session continues)")) := by
  constructor
  · intro s files body b64 k imo api mr now msg hact htm hext
    simp [upload_frame, hact, htm, hext, uploadSuccess, SessionState.update_result]
  · intro s now
    rfl

/-- Witness for C10: a concrete active non-test state and an invalid-JSON
body hit the extraction-failure path, and the placeholder's frame number
matches the post-update counter. -/
theorem upload_placeholder_frame_number_consistent_witness :
    activeState.active = true ∧ activeState.test_mode = false ∧
    extract_image_data none (ReqBody.invalid "bad json") (fun _ => Except.ok []) =
      Except.error "bad json" ∧
    (upload_frame activeState none (ReqBody.invalid "bad json") (fun _ => Except.ok [])
        true (fun _ => Except.ok ()) (fun _ => Except.error "down") 3 7).1.result =
      some ("Q: Frame " ++
        toString ((upload_frame activeState none (ReqBody.invalid "bad json")
          (fun _ => Except.ok []) true (fun _ => Except.ok ())
          (fun _ => Except.error "down") 3 7).2.frame_number) ++
        "\nA: Image capture issue") :=
  ⟨rfl, rfl, rfl,
   upload_placeholder_frame_number_consistent.1 activeState none (ReqBody.invalid "bad json")
     (fun _ => Except.ok []) true (fun _ => Except.ok ()) (fun _ => Except.error "down")
     3 7 "bad json" rfl rfl rfl⟩

/-- Helper: the one-step unfolding of the retry loop at a non-zero
remaining count. -/
theorem retry_from_succ (api : Nat → Except String (Option String))
    (frame_number attempt remaining : Nat) :
    retry_from api frame_number attempt (remaining + 1) =
      match api attempt with
      | Except.ok (some text) =>
          if text = "" then
            Except.ok ("Q: Frame " ++ toString frame_number ++ "\nA: No response from API")
          else
            Except.ok text.trim
      | Except.ok none =>
          Except.ok ("Q: Frame " ++ toString frame_number ++ "\nA: No response from API")
      | Except.error apiError =>
          if remaining = 0 then Except.error apiError
          else retry_from api frame_number (attempt + 1) remaining := rfl

/-- Helper: when every attempt of the API oracle raises, the retry loop
re-raises the exception of the last attempt performed. -/
theorem retry_from_all_error (api : Nat → Except String (Option String))
    (msgs : Nat → String) (hapi : ∀ i, api i = Except.error (msgs i))
    (frame_number : Nat) :
    ∀ (remaining attempt : Nat),
      retry_from api frame_number attempt (remaining + 1) =
        Except.error (msgs (attempt + remaining)) := by
  intro remaining
  induction remaining with
  | zero =>
      intro attempt
      rw [retry_from_succ, hapi attempt]
      simp
  | succ k ih =>
      intro attempt
      rw [retry_from_succ, hapi attempt]
      simp only [Nat.succ_ne_zero, if_false]
      rw [ih (attempt + 1)]
      have harith : attempt + 1 + k = attempt + (k + 1) := by omega
      rw [harith]

/-- C3: `process_image` is modelled as a total function into `String`, so it
never raises to its caller for any image bytes, frame number, test-mode flag
or API behaviour; whenever an exception escapes its body (modelled as the
body evaluating to `Except.error`), it returns the degraded string
`Q: Frame <n>\nA: Processing error: <message truncated to 50 chars>...` —
in particular when the API raises on every retry attempt, in which case the
message is that of the final attempt. -/
theorem process_image_never_raises_degrades :
    (∀ api_key image_open api max_retries frame_number test_mode e,
      process_image_body api_key image_open api max_retries frame_number test_mode =
        Except.error e →
      process_image api_key image_open api max_retries frame_number test_mode =
        "Q: Frame " ++ toString frame_number ++ "\nA: Processing error: " ++
          e.take 50 ++ "...") ∧
    (∀ (msgs : Nat → String) (max_retries frame_number : Nat),
      1 ≤ max_retries →
      process_image true (Except.ok ()) (fun i => Except.error (msgs i)) max_retries
          frame_number false =
        "Q: Frame " ++ toString frame_number ++ "\nA: Processing error: " ++
          (msgs (max_retries - 1)).take 50 ++ "...") := by
  constructor
  · intro k imo api mr n tm e he
    simp [process_image, he]
  · intro msgs mr n h
    obtain ⟨m, rfl⟩ : ∃ m, mr = m + 1 := ⟨mr - 1, by omega⟩
    have hb : process_image_body true (Except.ok ()) (fun i => Except.error (msgs i))
        (m + 1) n false = Except.error (msgs m) := by
      have := retry_from_all_error (fun i => Except.error (msgs i)) msgs
        (fun _ => rfl) n m 0
      simpa [process_image_body] using this
    simp [process_image, hb]

set_option maxRecDepth 8192 in
/-- Witness for C3: an API that raises "connection reset by peer" on all
three attempts makes `process_image` return the degraded string for frame
7, with the message truncated and suffixed. -/
theorem process_image_never_raises_degrades_witness :
    1 ≤ 3 ∧
    process_image true (Except.ok ()) (fun _ => Except.error "connection reset by peer")
        3 7 false = "Q: Frame 7\nA: Processing error: connection reset by peer..." :=
  ⟨by decide, by
    rw [process_image_never_raises_degrades.2 (fun _ => "connection reset by peer") 3 7
      (by decide)]
    decide⟩

/-- Helper: every canned test response is a non-empty string. -/
theorem generate_test_response_ne_empty (n : Nat) : generate_test_response n ≠ "" := by
  have h5 : test_responses.length = 5 := rfl
  have h : n % 5 = 0 ∨ n % 5 = 1 ∨ n % 5 = 2 ∨ n % 5 = 3 ∨ n % 5 = 4 := by omega
  unfold generate_test_response
  rw [h5]
  rcases h with h | h | h | h | h <;> rw [h] <;> decide

/-- Helper: a string starting with the `Q: Frame ` prefix is non-empty. -/
theorem qframe_append_ne_empty (a b : String) : "Q: Frame " ++ a ++ b ≠ "" := by
  intro hcontra
  have hlen := congrArg String.length hcontra
  have h9 : ("Q: Frame " : String).length = 9 := rfl
  have h0 : ("" : String).length = 0 := rfl
  simp only [String.length_append, h9, h0] at hlen
  omega

/-- C6: an upload arriving while a session is active whose image extraction
raises (in particular: no multipart file together with a non-JSON body, or
with a base64 field the decoder rejects) returns transport-level success
carrying a non-empty placeholder result, and increments `processed_count`
and `frame_number` exactly once each. -/
theorem upload_malformed_success_increment :
    (∀ (s : SessionState) files body b64decode api_key image_open api max_retries now msg,
      s.active = true →
      extract_image_data files body b64decode = Except.error msg →
      (upload_frame s files body b64decode api_key image_open api max_retries now).1.status
          = "success" ∧
      (∃ r, (upload_frame s files body b64decode api_key image_open api max_retries
          now).1.result = some r ∧ r ≠ "") ∧
      (upload_frame s files body b64decode api_key image_open api max_retries
          now).2.processed_count = s.processed_count + 1 ∧
      (upload_frame s files body b64decode api_key image_open api max_retries
          now).2.frame_number = s.frame_number + 1) ∧
    (∀ (msg : String) b64decode,
      extract_image_data none (ReqBody.invalid msg) b64decode = Except.error msg) ∧
    (∀ (imgStr msg : String) b64decode,
      b64decode (stripDataUrl imgStr) = Except.error msg →
      extract_image_data none (ReqBody.valid (some imgStr)) b64decode =
        Except.error msg) := by
  refine ⟨?_, fun msg b64 => rfl, fun imgStr msg b64 h => by simp [extract_image_data, h]⟩
  intro s files body b64 k imo api mr now msg hact hext
  by_cases htm : s.test_mode
  · refine ⟨by simp [upload_frame, hact, hext, htm, uploadSuccess], ?_, ?_, ?_⟩
    · exact ⟨generate_test_response (s.frame_number + 1),
        by simp [upload_frame, hact, hext, htm, uploadSuccess],
        generate_test_response_ne_empty (s.frame_number + 1)⟩
    · simp [upload_frame, hact, hext, htm, SessionState.update_result]
    · simp [upload_frame, hact, hext, htm, SessionState.update_result]
  · refine ⟨by simp [upload_frame, hact, hext, htm, uploadSuccess], ?_, ?_, ?_⟩
    · exact ⟨"Q: Frame " ++ toString (s.frame_number + 1) ++ "\nA: Image capture issue",
        by simp [upload_frame, hact, hext, htm, uploadSuccess],
        qframe_append_ne_empty _ _⟩
    · simp [upload_frame, hact, hext, htm, SessionState.update_result]
    · simp [upload_frame, hact, hext, htm, SessionState.update_result]

/-- Witness for C6: the running non-test state with a non-JSON body — the
extraction raises, the response is success with the non-empty capture-issue
placeholder, and both counters go from 0 to 1. -/
theorem upload_malformed_success_increment_witness :
    activeState.active = true ∧
    extract_image_data none (ReqBody.invalid "Expecting value")
      (fun _ => Except.ok []) = Except.error "Expecting value" ∧
    ((upload_frame activeState none (ReqBody.invalid "Expecting value")
        (fun _ => Except.ok []) true (fun _ => Except.ok ())
        (fun _ => Except.error "down") 3 9).1.status = "success" ∧
      (∃ r, (upload_frame activeState none (ReqBody.invalid "Expecting value")
          (fun _ => Except.ok []) true (fun _ => Except.ok ())
          (fun _ => Except.error "down") 3 9).1.result = some r ∧ r ≠ "") ∧
      (upload_frame activeState none (ReqBody.invalid "Expecting value")
          (fun _ => Except.ok []) true (fun _ => Except.ok ())
          (fun _ => Except.error "down") 3 9).2.processed_count =
        activeState.processed_count + 1 ∧
      (upload_frame activeState none (ReqBody.invalid "Expecting value")
          (fun _ => Except.ok []) true (fun _ => Except.ok ())
          (fun _ => Except.error "down") 3 9).2.frame_number =
        activeState.frame_number + 1) :=
  ⟨rfl, rfl,
    upload_malformed_success_increment.1 activeState none (ReqBody.invalid "Expecting value")
      (fun _ => Except.ok []) true (fun _ => Except.ok ()) (fun _ => Except.error "down")
      3 9 "Expecting value" rfl rfl⟩

/-- C1 counterexample: in the scenario `start(test_mode=true)` → three
uploads with valid image data → `end`, the first upload's result is the
canned response at index 1 of the fixed list, not the one at index 0 that
the claim requires, because `upload_frame` calls the generator with
`frame_number + 1`, which is 1 for the first upload. -/
theorem start_upload3_end_counterexample :
    c1Upload1.1.result = some (test_responses.getD (1 % 5) "") ∧
    c1Upload1.1.result ≠ some (test_responses.getD (0 % 5) "") := by
  exact ⟨rfl, by decide⟩

/-- C1 amended: in the scenario `start(test_mode=true)` → three uploads with
valid image data → `end`, the end response reports `processed_count == 3`
(and `total_frames == 3`), and the three upload results are the canned test
responses at indices `[1,2,3] mod 5` of the fixed five-element list, in that
order — the generator is keyed by `frame_number + 1`, which runs 1, 2, 3. -/
theorem start_upload3_end_amended :
    c1Upload1.1.result = some (test_responses.getD (1 % 5) "") ∧
    c1Upload2.1.result = some (test_responses.getD (2 % 5) "") ∧
    c1Upload3.1.result = some (test_responses.getD (3 % 5) "") ∧
    c1Upload1.1.processed_count = some 1 ∧
    c1Upload2.1.processed_count = some 2 ∧
    c1Upload3.1.processed_count = some 3 ∧
    c1End.1.processed_count = 3 ∧
    c1End.1.total_frames = 3 :=
  ⟨rfl, rfl, rfl, rfl, rfl, rfl, rfl, rfl⟩

/-- Helper: every single request preserves `processed_count = frame_number`:
start and end zero both counters, and every non-rejected ingestion attempt
goes through `update_result`, which increments both. -/
theorem runOp_preserves_counters (s : SessionState) (op : Op)
    (h : s.processed_count = s.frame_number) :
    (runOp s op).processed_count = (runOp s op).frame_number := by
  cases op with
  | startOp cfg body now =>
      cases body <;> simp [runOp, start_session, h]
  | uploadOp files body b64 k imo api mr now =>
      cases hact : s.active with
      | false => simp [runOp, upload_frame, hact, h]
      | true =>
          rcases hext : extract_image_data files body b64 with msg | bytes
          · cases htm : s.test_mode <;>
              simp [runOp, upload_frame, hact, hext, htm, SessionState.update_result, h]
          · simp [runOp, upload_frame, hact, hext, SessionState.update_result, h]
  | uploadFaultOp now =>
      simp [runOp, upload_frame_fault, SessionState.update_result, h]
  | endOp now =>
      simp [runOp, end_session, SessionState.reset]

/-- Helper: the counter equality holds at every intermediate state of a run,
propagated along `List.scanl`. -/
theorem scanl_runOp_counters (ops : List Op) :
    ∀ (s0 : SessionState), s0.processed_count = s0.frame_number →
      ∀ s ∈ List.scanl runOp s0 ops, s.processed_count = s.frame_number := by
  induction ops with
  | nil =>
      intro s0 h s hs
      simp only [List.scanl, List.mem_singleton] at hs
      exact hs ▸ h
  | cons op rest ih =>
      intro s0 h s hs
      rw [List.scanl_cons] at hs
      rcases List.mem_cons.1 hs with rfl | hs2
      · exact h
      · exact ih (runOp s0 op) (runOp_preserves_counters s0 op h) s hs2

/-- C2: along any request sequence from the initial state — in particular
any `start → upload* → end` — the equality
`processed_count = frame_number` holds after every operation; moreover
`update_result` increments both counters together exactly once, and a
successful start, like `reset`, zeroes both together. -/
theorem processed_equals_frame_invariant :
    (∀ (ops : List Op) (s : SessionState),
      s ∈ List.scanl runOp initState ops → s.processed_count = s.frame_number) ∧
    (∀ (s : SessionState) (r : String) (now : Nat),
      (s.update_result r now).processed_count = s.processed_count + 1 ∧
      (s.update_result r now).frame_number = s.frame_number + 1) ∧
    (∀ (cfg : Bool) (tm : Option Bool) (now : Nat) (s : SessionState),
      (start_session cfg (ReqBody.valid tm) now s).2.processed_count = 0 ∧
      (start_session cfg (ReqBody.valid tm) now s).2.frame_number = 0) ∧
    (∀ (s : SessionState) (now : Nat),
      (s.reset now).processed_count = 0 ∧ (s.reset now).frame_number = 0) :=
  ⟨fun ops s hs => scanl_runOp_counters ops initState rfl s hs,
   fun _ _ _ => ⟨rfl, rfl⟩, fun _ _ _ _ => ⟨rfl, rfl⟩, fun _ _ => ⟨rfl, rfl⟩⟩

set_option maxRecDepth 8192 in
/-- Witness for C2: in the concrete run `start → degraded upload → end`, the
state reached after the degraded upload lies on the trace and satisfies the
counter equality. -/
theorem processed_equals_frame_invariant_witness :
    c2AfterUpload ∈ List.scanl runOp initState c2Ops ∧
    c2AfterUpload.processed_count = c2AfterUpload.frame_number :=
  ⟨by decide, processed_equals_frame_invariant.1 c2Ops c2AfterUpload (by decide)⟩

/-- C7: `update_config` stores `max 2 v` whenever the body supplies
`capture_interval = v` — in particular a requested value of 1 leaves the
stored value at 2 — and every call, whatever the method, body validity or
supplied fields, answers status "success" with the full current Config. -/
theorem update_config_clamp_and_echo :
    (∀ (cfg : Config) (data : ConfigRequest) (v : Int),
      data.capture_interval = some v →
      (update_config cfg true (ReqBody.valid data)).2.capture_interval = max 2 v) ∧
    (∀ (cfg : Config) (data : ConfigRequest),
      data.capture_interval = some 1 →
      (update_config cfg true (ReqBody.valid data)).2.capture_interval = 2) ∧
    (∀ (cfg : Config) (isPost : Bool) (body : ReqBody ConfigRequest),
      (update_config cfg isPost body).1.status = "success" ∧
      (update_config cfg isPost body).1.config = (update_config cfg isPost body).2) := by
  have h1 : ∀ (cfg : Config) (data : ConfigRequest) (v : Int),
      data.capture_interval = some v →
      (update_config cfg true (ReqBody.valid data)).2.capture_interval = max 2 v := by
    intro cfg data v h
    obtain ⟨ci, tm, q⟩ := data
    simp only at h
    subst h
    cases tm <;> cases q <;> simp [update_config]
  refine ⟨h1, fun cfg data h => by rw [h1 cfg data 1 h]; decide, ?_⟩
  intro cfg isPost body
  cases isPost <;> cases body <;> simp [update_config]

/-- Witness for C7: requesting `capture_interval = 1` on the initial config
stores the clamped value 2. -/
theorem update_config_clamp_and_echo_witness :
    (ConfigRequest.mk (some 1) none none).capture_interval = some 1 ∧
    (update_config initConfig true
      (ReqBody.valid (ConfigRequest.mk (some 1) none none))).2.capture_interval = 2 :=
  ⟨rfl, update_config_clamp_and_echo.2.1 initConfig
    (ConfigRequest.mk (some 1) none none) rfl⟩

/-- C8 counterexample: the polling readers take no lock in the source, so a
read interleaved into `update_result`'s critical section can observe the
incremented `processed_count` together with the previous `latest_result`:
under the schedule [writer, reader, reader, reader] the reader of
`get_latest_result` sees `processed_count = 1` while `latest_result` is
still the start banner, not the text being recorded. -/
theorem update_result_reader_atomicity_counterexample :
    (interleave (writer_steps "Q: Question 2\nA: Option B" 5) reader_steps
        activeState emptyObs [true, false, false, false]).2.processed_count =
      some (activeState.processed_count + 1) ∧
    (interleave (writer_steps "Q: Question 2\nA: Option B" 5) reader_steps
        activeState emptyObs [true, false, false, false]).2.latest_result =
      some activeState.latest_result ∧
    activeState.latest_result ≠ "Q: Question 2\nA: Option B" := by
  exact ⟨rfl, rfl, by decide⟩

/-- C8 amended: `update_result` performs all four field writes inside one
critical section, so it is atomic with respect to other lock acquirers (its
write sequence composes to exactly the atomic transition, and a reader that
does not overlap it sees a consistent snapshot equal to
`get_latest_result`); but the polling readers acquire no lock in the
source, and for every state and every result text differing from the stored
one there is an interleaving in which the reader observes
`processed_count` already incremented while `latest_result` still holds the
earlier text. -/
theorem update_result_reader_atomicity_amended :
    (∀ (s : SessionState) (r : String) (now : Nat),
      List.foldl (fun st f => f st) s (writer_steps r now) = s.update_result r now) ∧
    (∀ (s : SessionState),
      (interleave [] reader_steps s emptyObs []).2 =
        { active := some s.active, latest_result := some s.latest_result,
          processed_count := some s.processed_count,
          frame_number := some s.frame_number,
          last_update := some s.last_update }) ∧
    (∀ (s : SessionState) (r : String) (now : Nat),
      s.latest_result ≠ r →
      ∃ sched : List Bool,
        (interleave (writer_steps r now) reader_steps s emptyObs sched).2.processed_count =
          some (s.processed_count + 1) ∧
        (interleave (writer_steps r now) reader_steps s emptyObs sched).2.latest_result =
          some s.latest_result ∧
        (interleave (writer_steps r now) reader_steps s emptyObs sched).2.latest_result ≠
          some r) := by
  refine ⟨fun s r now => rfl, fun s => rfl, ?_⟩
  intro s r now h
  exact ⟨[true, false, false, false], rfl, rfl, fun hc => h (Option.some.inj hc)⟩

/-- Witness for C8's amended statement: at the running session and the text
of the canned response being recorded, the torn interleaving exists. -/
theorem update_result_reader_atomicity_amended_witness :
    activeState.latest_result ≠ "Q: Question 2\nA: Option B" ∧
    (∃ sched : List Bool,
      (interleave (writer_steps "Q: Question 2\nA: Option B" 5) reader_steps
          activeState emptyObs sched).2.processed_count =
        some (activeState.processed_count + 1) ∧
      (interleave (writer_steps "Q: Question 2\nA: Option B" 5) reader_steps
          activeState emptyObs sched).2.latest_result =
        some activeState.latest_result ∧
      (interleave (writer_steps "Q: Question 2\nA: Option B" 5) reader_steps
          activeState emptyObs sched).2.latest_result ≠
        some "Q: Question 2\nA: Option B") :=
  ⟨by decide, update_result_reader_atomicity_amended.2.2 activeState
    "Q: Question 2\nA: Option B" 5 (by decide)⟩

end VisionApp
